import Mathlib

/-!
Shallow embedding of `datarecorder.py` (class `DataRecorder`): the acquisition
loop (`record_loop`), per-trial capture (`_record_eeg_sample`), and shape
normalization (`_padtrim_sample`).  Sample values are modelled as rationals,
metadata values as a small Python-value type, and the session dataset as the
`samples` dictionary (an association list keyed by field name).  Hook methods
(`signal_start_recording`, `signal_end_recording`, `present_stimuli`,
`end_stimuli`) are modelled as events appended to an event trace, and Python
exceptions (`AssertionError`, `KeyError`, `ValueError`) as an error component
of the loop result.
-/

namespace DataRec

/-- Python `int(q)` on a float/number: truncation toward zero. -/
def pythonInt (q : ℚ) : ℤ :=
  if 0 ≤ q then ⌊q⌋ else ⌈q⌉

/-- `target_length = int(sampling_frequency * duration)` from `_padtrim_sample`. -/
def targetLength (sampling_frequency duration : ℚ) : ℤ :=
  pythonInt (sampling_frequency * duration)

/-- Python list slice `l[:n]`, which counts from the end when `n` is negative. -/
def pyTake {α : Type} (n : ℤ) (l : List α) : List α :=
  if 0 ≤ n then l.take n.toNat else l.take (l.length - (-n).toNat)

/-- `_padtrim_sample(samples, sampling_frequency, duration)` on a 2-D buffer
given as its list of channel rows (`C, T = samples.shape`; all rows have the
common length `T`, read off the first row as numpy's shape does).
Pads each row with zeros on the right up to `target_length`, or trims via
`samples[:, :target_length]`. -/
def padtrim (samples : List (List ℚ)) (sampling_frequency duration : ℚ) :
    List (List ℚ) :=
  let T : ℤ := ((samples.headD []).length : ℤ)
  let target_length : ℤ := targetLength sampling_frequency duration
  if T < target_length then
    samples.map (fun r => r ++ List.replicate (target_length - T).toNat 0)
  else
    samples.map (fun r => pyTake target_length r)

/-- A numpy array as produced by `np.array(samples)`: 1-D when the Python list
was empty, 2-D (list of rows) otherwise. -/
inductive NpArray where
  | one : List ℚ → NpArray
  | two : List (List ℚ) → NpArray
deriving DecidableEq

/-- `_record_eeg_sample`: the pulled samples (one fixed-length channel vector
per timestep) are assembled with `np.array(samples)` and transposed with `.T`.
`np.array([])` on the empty pull list yields a 1-D array of shape `(0,)`,
and `.T` leaves a 1-D array unchanged. -/
def record_eeg_sample (pulls : List (List ℚ)) : NpArray :=
  match pulls with
  | [] => NpArray.one []
  | _ :: _ => NpArray.two pulls.transpose

/-- Python exceptions that the modelled code can raise. -/
inductive PyErr where
  | assertionError
  | keyError (key : String)
  | valueError
deriving DecidableEq

/-- `_padtrim_sample` applied to a raw numpy array: `C, T = samples.shape`
raises `ValueError` (not enough values to unpack) on a 1-D array. -/
def padtrim_np (a : NpArray) (sampling_frequency duration : ℚ) :
    Except PyErr (List (List ℚ)) :=
  match a with
  | NpArray.one _ => Except.error PyErr.valueError
  | NpArray.two rows => Except.ok (padtrim rows sampling_frequency duration)

/-- A Python value stored in the `additional_variables` metadata dict:
a number (not `Iterable`), a string, or a list. -/
inductive PyVal where
  | vint : ℤ → PyVal
  | vstr : String → PyVal
  | vlist : List PyVal → PyVal

/-- `isinstance(v, collections.abc.Iterable)`: strings and lists are Iterable,
numbers are not. -/
def PyVal.isIterable : PyVal → Bool
  | PyVal.vint _ => false
  | PyVal.vstr _ => true
  | PyVal.vlist _ => true

/-- Python `len(v)` for the iterable values. -/
def PyVal.pyLen : PyVal → ℕ
  | PyVal.vint _ => 0
  | PyVal.vstr s => s.length
  | PyVal.vlist l => l.length

/-- The elements `list.extend(v)` appends when `v` is iterated:
a string contributes its characters as one-character strings. -/
def PyVal.elems : PyVal → List PyVal
  | PyVal.vint n => [PyVal.vint n]
  | PyVal.vstr s => s.toList.map (fun c => PyVal.vstr (String.mk [c]))
  | PyVal.vlist l => l

/-- Python `v * n`: numeric multiplication for numbers, repetition for
strings and lists. -/
def PyVal.pyMul : PyVal → ℕ → PyVal
  | PyVal.vint m, n => PyVal.vint (m * (n : ℤ))
  | PyVal.vstr s, n => PyVal.vstr (String.join (List.replicate n s))
  | PyVal.vlist l, n => PyVal.vlist (List.flatten (List.replicate n l))

/-- Dictionary lookup `d[k]` on an insertion-ordered association list. -/
def dget {α : Type} (d : List (String × α)) (k : String) : Option α :=
  match d with
  | [] => none
  | (k', v) :: rest => if k' = k then some v else dget rest k

/-- Dictionary assignment `d[k] = v`: overwrite in place or append. -/
def dset {α : Type} (d : List (String × α)) (k : String) (v : α) :
    List (String × α) :=
  match d with
  | [] => [(k, v)]
  | (k', v') :: rest => if k' = k then (k, v) :: rest else (k', v') :: dset rest k v

/-- The recorder's `self.samples` dictionary: the `'recordings'` list of
normalized windows plus the additional metadata fields. -/
structure Dataset where
  recordings : List (List (List ℚ))
  fields : List (String × List PyVal)

/-- The `DataRecorder` instance state set up by `__init__`. -/
structure DataRecorder where
  sampling_frequency : ℚ
  samples : Dataset

/-- `DataRecorder.__init__(sampling_frequency, additional_variables)`:
`self.samples = {'recordings': []}` then `self.samples[variable] = []`
for each declared variable. -/
def DataRecorder.init (sampling_frequency : ℚ) (additional_variables : List String) :
    DataRecorder :=
  ⟨sampling_frequency,
   ⟨[], additional_variables.foldl (fun fs v => dset fs v []) []⟩⟩

/-- The overridable hook methods, recorded as an event trace. -/
inductive Event where
  | signal_start_recording
  | signal_end_recording
  | present_stimuli
  | end_stimuli
deriving DecidableEq

/-- `record_one_iteration`: rest sleep, `present_stimuli()`, capture,
`end_stimuli()`, then `_padtrim_sample`.  Both stimulus hooks fire before the
pad/trim step can raise. -/
def record_one_iteration (pulls : List (List ℚ)) (sampling_frequency duration : ℚ) :
    List Event × Except PyErr (List (List ℚ)) :=
  ([Event.present_stimuli, Event.end_stimuli],
   padtrim_np (record_eeg_sample pulls) sampling_frequency duration)

/-- The metadata-validation loop of `record_loop` (lines 94-100): each key is
classified as a list variable (Iterable, with the `len == iterations`
assertion) or an object variable, in dict order; the first failing assertion
raises `AssertionError`. -/
def classify (iterations : ℕ) :
    List (String × PyVal) →
      Except PyErr (List (String × PyVal) × List (String × PyVal))
  | [] => Except.ok ([], [])
  | (k, v) :: rest =>
    if v.isIterable then
      if v.pyLen = iterations then
        match classify iterations rest with
        | Except.error e => Except.error e
        | Except.ok (ls, os) => Except.ok ((k, v) :: ls, os)
      else Except.error PyErr.assertionError
    else
      match classify iterations rest with
      | Except.error e => Except.error e
      | Except.ok (ls, os) => Except.ok (ls, (k, v) :: os)

/-- The trial loop `for i in range(iterations)` starting at index `start`:
returns the recordings appended so far, the stimulus events fired, and the
first error if a trial raised (later trials then do not run). -/
def runTrials (sampling_frequency duration : ℚ) (pulls : ℕ → List (List ℚ)) :
    ℕ → ℕ → List (List (List ℚ)) × List Event × Option PyErr
  | _, 0 => ([], [], none)
  | start, n + 1 =>
    let step := record_one_iteration (pulls start) sampling_frequency duration
    match step.2 with
    | Except.error e => ([], step.1, some e)
    | Except.ok s =>
      let rest := runTrials sampling_frequency duration pulls (start + 1) n
      (s :: rest.1, step.1 ++ rest.2.1, rest.2.2)

/-- Lines 112-113: `self.samples[key].extend(additional_variables[key])` for
each list variable; a key absent from `self.samples` raises `KeyError`,
keeping the extensions already made. -/
def extendListVars (ds : Dataset) :
    List (String × PyVal) → Dataset × Option PyErr
  | [] => (ds, none)
  | (k, v) :: rest =>
    match dget ds.fields k with
    | none => (ds, some (PyErr.keyError k))
    | some cur =>
      extendListVars ⟨ds.recordings, dset ds.fields k (cur ++ v.elems)⟩ rest

/-- Lines 115-116: `self.samples[key].extend([additional_variables[key] * iterations])`
for each object variable — note the extension list holds the single element
`value * iterations`. -/
def extendObjectVars (iterations : ℕ) (ds : Dataset) :
    List (String × PyVal) → Dataset × Option PyErr
  | [] => (ds, none)
  | (k, v) :: rest =>
    match dget ds.fields k with
    | none => (ds, some (PyErr.keyError k))
    | some cur =>
      extendObjectVars iterations
        ⟨ds.recordings, dset ds.fields k (cur ++ [v.pyMul iterations])⟩ rest

/-- The outcome of one `record_loop` call: the final `self.samples`, the hook
events fired, and the exception that escaped, if any (`none` = normal return). -/
structure LoopResult where
  dataset : Dataset
  events : List Event
  error : Option PyErr

/-- The metadata-extension epilogue of `record_loop` (lines 111-116), run once
the trial loop finished normally: list variables first, then object
variables. -/
def finishMeta (iterations : ℕ) (listVars objectVars : List (String × PyVal))
    (ds : Dataset) (evs : List Event) : LoopResult :=
  match extendListVars ds listVars with
  | (ds2, some e) => ⟨ds2, evs, some e⟩
  | (ds2, none) =>
    match extendObjectVars iterations ds2 objectVars with
    | (ds3, err) => ⟨ds3, evs, err⟩

/-- `record_loop` once a stream handle is bound (lines 89-116): validate the
metadata, fire `signal_start_recording`, run the trial loop, fire
`signal_end_recording`, then extend the metadata fields. -/
def record_loop_body (rec : DataRecorder) (iterations : ℕ) (duration : ℚ)
    (additional_variables : List (String × PyVal)) (pulls : ℕ → List (List ℚ)) :
    LoopResult :=
  match classify iterations additional_variables with
  | Except.error e => ⟨rec.samples, [], some e⟩
  | Except.ok (listVars, objectVars) =>
    match runTrials rec.sampling_frequency duration pulls 0 iterations with
    | (recs, tev, some e) =>
      ⟨⟨rec.samples.recordings ++ recs, rec.samples.fields⟩,
       Event.signal_start_recording :: tev, some e⟩
    | (recs, tev, none) =>
      finishMeta iterations listVars objectVars
        ⟨rec.samples.recordings ++ recs, rec.samples.fields⟩
        (Event.signal_start_recording :: (tev ++ [Event.signal_end_recording]))

/-- `record_loop(stream, iterations, duration, rest_duration, additional_variables)`.
`stream` is the caller-provided handle (opaque); `stream_found` says whether
`_initiate_stream` (i.e. `pylsl.resolve_byprop` with the 4-second timeout)
finds a stream when no handle was passed; `pulls i` is the sample sequence the
inlet delivers during trial `i`'s capture window.  When no handle is passed
and discovery fails, the loop prints and returns with nothing done. -/
def record_loop (rec : DataRecorder) (stream : Option Unit) (stream_found : Bool)
    (iterations : ℕ) (duration : ℚ) (additional_variables : List (String × PyVal))
    (pulls : ℕ → List (List ℚ)) : LoopResult :=
  match stream, stream_found with
  | none, false => ⟨rec.samples, [], none⟩
  | _, _ => record_loop_body rec iterations duration additional_variables pulls

/-! ### Helper lemmas -/

theorem pyTake_of_nonneg {α : Type} (n : ℤ) (l : List α) (h : 0 ≤ n) :
    pyTake n l = l.take n.toNat := by
  unfold pyTake
  rw [if_pos h]

theorem targetLength_nonneg (sf d : ℚ) (hsf : 0 < sf) (hd : 0 < d) :
    0 ≤ targetLength sf d := by
  have h : 0 ≤ sf * d := le_of_lt (mul_pos hsf hd)
  unfold targetLength pythonInt
  rw [if_pos h]
  exact Int.floor_nonneg.mpr h

theorem padtrim_spec (samples : List (List ℚ)) (sf d : ℚ) (T : ℕ)
    (hT : ∀ r ∈ samples, r.length = T) (h0 : 0 ≤ targetLength sf d) :
    padtrim samples sf d =
      if T < (targetLength sf d).toNat then
        samples.map (fun r => r ++ List.replicate ((targetLength sf d).toNat - T) 0)
      else
        samples.map (fun r => r.take (targetLength sf d).toNat) := by
  have htn : ((targetLength sf d).toNat : ℤ) = targetLength sf d :=
    Int.toNat_of_nonneg h0
  cases samples with
  | nil => simp [padtrim]
  | cons a rest =>
    have ha : a.length = T := hT a (List.mem_cons_self a rest)
    unfold padtrim
    simp only [List.headD_cons, ha]
    by_cases hlt : T < (targetLength sf d).toNat
    · rw [if_pos (by omega), if_pos hlt]
      have harg : (targetLength sf d - (T : ℤ)).toNat = (targetLength sf d).toNat - T := by
        omega
      rw [harg]
    · rw [if_neg (by omega), if_neg hlt]
      have hfun : (fun r : List ℚ => pyTake (targetLength sf d) r) =
          fun r : List ℚ => r.take (targetLength sf d).toNat :=
        funext fun r => pyTake_of_nonneg _ r h0
      rw [hfun]

theorem padtrim_noop (samples : List (List ℚ)) (sf d : ℚ)
    (hT : ∀ r ∈ samples, r.length = (targetLength sf d).toNat)
    (h0 : 0 ≤ targetLength sf d) :
    padtrim samples sf d = samples := by
  rw [padtrim_spec samples sf d ((targetLength sf d).toNat) hT h0,
    if_neg (lt_irrefl _)]
  have : samples.map (fun r : List ℚ => r.take (targetLength sf d).toNat) =
      samples.map id := by
    refine List.map_congr_left fun r hr => ?_
    rw [← hT r hr]
    simp
  rw [this, List.map_id]

theorem padtrim_lengths (samples : List (List ℚ)) (sf d : ℚ) (T : ℕ)
    (hT : ∀ r ∈ samples, r.length = T) (h0 : 0 ≤ targetLength sf d) :
    ∀ r ∈ padtrim samples sf d, r.length = (targetLength sf d).toNat := by
  rw [padtrim_spec samples sf d T hT h0]
  intro r hr
  by_cases hlt : T < (targetLength sf d).toNat
  · rw [if_pos hlt] at hr
    obtain ⟨s, hs, rfl⟩ := List.mem_map.mp hr
    have := hT s hs
    simp [this]
    omega
  · rw [if_neg hlt] at hr
    obtain ⟨s, hs, rfl⟩ := List.mem_map.mp hr
    have := hT s hs
    simp [this]
    omega

theorem padtrim_num_rows (samples : List (List ℚ)) (sf d : ℚ) :
    (padtrim samples sf d).length = samples.length := by
  unfold padtrim
  simp only []
  split <;> simp

theorem record_loop_with_stream (rec : DataRecorder) (b : Bool) (iterations : ℕ)
    (d : ℚ) (av : List (String × PyVal)) (pulls : ℕ → List (List ℚ)) :
    record_loop rec (some ()) b iterations d av pulls =
      record_loop_body rec iterations d av pulls := rfl

theorem classify_error_of_mem (iterations : ℕ) (av : List (String × PyVal))
    (k : String) (v : PyVal) (hmem : (k, v) ∈ av) (hit : v.isIterable = true)
    (hlen : v.pyLen ≠ iterations) :
    classify iterations av = Except.error PyErr.assertionError := by
  induction av with
  | nil => cases hmem
  | cons hd tl ih =>
    rcases List.mem_cons.mp hmem with h | h
    · rw [← h]
      simp [classify, hit, hlen]
    · cases hd with
      | mk k' v' =>
        by_cases h1 : v'.isIterable
        · by_cases h2 : v'.pyLen = iterations
          · simp [classify, h1, h2, ih h]
          · simp [classify, h1, h2]
        · simp [classify, h1, ih h]

theorem classify_all_object (iterations : ℕ) (av : List (String × PyVal))
    (h : ∀ kv ∈ av, kv.2.isIterable = false) :
    classify iterations av = Except.ok ([], av) := by
  induction av with
  | nil => rfl
  | cons hd tl ih =>
    have hhd : hd.2.isIterable = false := h hd (List.mem_cons_self hd tl)
    have htl : ∀ kv ∈ tl, kv.2.isIterable = false := fun kv hkv =>
      h kv (List.mem_cons_of_mem hd hkv)
    cases hd with
    | mk k v =>
      simp only [classify]
      simp [hhd, ih htl]

theorem runTrials_total (sf d : ℚ) (pulls : ℕ → List (List ℚ))
    (hp : ∀ i, pulls i ≠ []) :
    ∀ (n start : ℕ), (runTrials sf d pulls start n).2.2 = none ∧
      (runTrials sf d pulls start n).1.length = n := by
  intro n
  induction n with
  | zero => intro start; exact ⟨rfl, rfl⟩
  | succ m ih =>
    intro start
    cases hpull : pulls start with
    | nil => exact absurd hpull (hp start)
    | cons a rest =>
      unfold runTrials
      simp only [record_one_iteration, record_eeg_sample, padtrim_np, hpull]
      simp [ih (start + 1)]

theorem runTrials_error_valueError (sf d : ℚ) (pulls : ℕ → List (List ℚ)) :
    ∀ (n start : ℕ) (e : PyErr),
      (runTrials sf d pulls start n).2.2 = some e → e = PyErr.valueError := by
  intro n
  induction n with
  | zero => intro start e h; cases h
  | succ m ih =>
    intro start e h
    unfold runTrials at h
    cases hpull : pulls start with
    | nil =>
      rw [hpull] at h
      simp [record_one_iteration, record_eeg_sample, padtrim_np] at h
      exact h.symm
    | cons a rest =>
      rw [hpull] at h
      simp only [record_one_iteration, record_eeg_sample, padtrim_np] at h
      exact ih (start + 1) e h

theorem extendObjectVars_keyError (iterations : ℕ) :
    ∀ (l : List (String × PyVal)) (ds : Dataset) (e : PyErr),
      (extendObjectVars iterations ds l).2 = some e →
        ∃ k, e = PyErr.keyError k := by
  intro l
  induction l with
  | nil => intro ds e h; cases h
  | cons hd tl ih =>
    intro ds e h
    cases hd with
    | mk k v =>
      unfold extendObjectVars at h
      cases hdg : dget ds.fields k with
      | none =>
        rw [hdg] at h
        simp at h
        exact ⟨k, h.symm⟩
      | some cur =>
        rw [hdg] at h
        exact ih _ e h

/-! ### Claim theorems -/

/-- C6: for every positive sampling frequency and positive duration, the
target length computed by the normalizer equals `floor(sampling_frequency *
duration)` exactly; in particular 256 with duration 2.0 gives 512, and 250
with duration 1.003 gives 250. -/
theorem targetLength_eq_floor (sf d : ℚ) (hsf : 0 < sf) (hd : 0 < d) :
    targetLength sf d = ⌊sf * d⌋ ∧
      targetLength 256 2 = 512 ∧
      targetLength 250 (1003 / 1000) = 250 := by
  refine ⟨?_, ?_, ?_⟩
  · unfold targetLength pythonInt
    exact if_pos (le_of_lt (mul_pos hsf hd))
  · unfold targetLength pythonInt
    rw [if_pos (by norm_num)]
    rw [show (256 : ℚ) * 2 = 512 by norm_num]
    simp
  · unfold targetLength pythonInt
    rw [if_pos (by norm_num)]
    rw [show (250 : ℚ) * (1003 / 1000) = 1003 / 4 by norm_num]
    rw [Int.floor_eq_iff]
    norm_num

/-- Witness for C6 at `sampling_frequency = 256`, `duration = 2`. -/
theorem targetLength_eq_floor_witness :
    (0 : ℚ) < 256 ∧ (0 : ℚ) < 2 ∧
      (targetLength 256 2 = ⌊(256 : ℚ) * 2⌋ ∧
        targetLength 256 2 = 512 ∧
        targetLength 250 (1003 / 1000) = 250) :=
  ⟨by norm_num, by norm_num, targetLength_eq_floor 256 2 (by norm_num) (by norm_num)⟩

/-- C5: for every 2-D raw buffer of shape `[C, T]`, normalize returns a buffer
of shape exactly `[C, target_length]`: when `T < target_length` each channel
row equals the input row followed by zeros, and when `T >= target_length` each
channel row equals the first `target_length` entries of the input row; the
channel count is unchanged in both cases. -/
theorem padtrim_shape (samples : List (List ℚ)) (sf d : ℚ) (T : ℕ)
    (hT : ∀ r ∈ samples, r.length = T) (hsf : 0 < sf) (hd : 0 < d) :
    (padtrim samples sf d).length = samples.length ∧
      (∀ r ∈ padtrim samples sf d, r.length = (targetLength sf d).toNat) ∧
      (T < (targetLength sf d).toNat →
        padtrim samples sf d =
          samples.map (fun r => r ++ List.replicate ((targetLength sf d).toNat - T) 0)) ∧
      ((targetLength sf d).toNat ≤ T →
        padtrim samples sf d = samples.map (fun r => r.take (targetLength sf d).toNat)) := by
  have h0 := targetLength_nonneg sf d hsf hd
  refine ⟨padtrim_num_rows samples sf d, padtrim_lengths samples sf d T hT h0, ?_, ?_⟩
  · intro hlt
    rw [padtrim_spec samples sf d T hT h0, if_pos hlt]
  · intro hle
    rw [padtrim_spec samples sf d T hT h0, if_neg (by omega)]

/-- Witness for C5 at the buffer `[[0, 1], [1, 0]]` with `sampling_frequency = 1`,
`duration = 1` (target length 1, so the trim branch is exercised). -/
theorem padtrim_shape_witness :
    (∀ r ∈ ([[0, 1], [1, 0]] : List (List ℚ)), r.length = 2) ∧
      (0 : ℚ) < 1 ∧
      ((padtrim [[0, 1], [1, 0]] 1 1).length = ([[0, 1], [1, 0]] : List (List ℚ)).length ∧
        (∀ r ∈ padtrim [[0, 1], [1, 0]] 1 1, r.length = (targetLength 1 1).toNat) ∧
        (2 < (targetLength 1 1).toNat →
          padtrim [[0, 1], [1, 0]] 1 1 =
            ([[0, 1], [1, 0]] : List (List ℚ)).map
              (fun r => r ++ List.replicate ((targetLength 1 1).toNat - 2) 0)) ∧
        ((targetLength 1 1).toNat ≤ 2 →
          padtrim [[0, 1], [1, 0]] 1 1 =
            ([[0, 1], [1, 0]] : List (List ℚ)).map
              (fun r => r.take (targetLength 1 1).toNat))) :=
  ⟨by simp, by norm_num,
    padtrim_shape [[0, 1], [1, 0]] 1 1 2 (by simp) (by norm_num) (by norm_num)⟩

/-- C7: normalization is a no-op on a buffer whose time-axis length already
equals the target length, and is idempotent on every uniformly-shaped buffer:
`padtrim (padtrim x) = padtrim x`. -/
theorem padtrim_idempotent (samples : List (List ℚ)) (sf d : ℚ) (T : ℕ)
    (hT : ∀ r ∈ samples, r.length = T) (hsf : 0 < sf) (hd : 0 < d) :
    (T = (targetLength sf d).toNat → padtrim samples sf d = samples) ∧
      padtrim (padtrim samples sf d) sf d = padtrim samples sf d := by
  have h0 := targetLength_nonneg sf d hsf hd
  constructor
  · intro hTt
    exact padtrim_noop samples sf d (fun r hr => (hT r hr).trans hTt) h0
  · exact padtrim_noop _ sf d (padtrim_lengths samples sf d T hT h0) h0

/-- Witness for C7 at the already-normalized buffer `[[0]]` with
`sampling_frequency = 1`, `duration = 1` (target length 1). -/
theorem padtrim_idempotent_witness :
    (∀ r ∈ ([[0]] : List (List ℚ)), r.length = 1) ∧
      (0 : ℚ) < 1 ∧
      ((1 = (targetLength 1 1).toNat → padtrim [[0]] 1 1 = [[0]]) ∧
        padtrim (padtrim [[0]] 1 1) 1 1 = padtrim [[0]] 1 1) :=
  ⟨by simp, by norm_num,
    padtrim_idempotent [[0]] 1 1 1 (by simp) (by norm_num) (by norm_num)⟩

/-- C8: when no stream handle is supplied and discovery finds no stream within
the timeout, `record_loop` returns normally with no hook fired and the dataset
untouched. -/
theorem no_stream_clean_return (rec : DataRecorder) (iterations : ℕ) (d : ℚ)
    (av : List (String × PyVal)) (pulls : ℕ → List (List ℚ)) :
    record_loop rec none false iterations d av pulls = ⟨rec.samples, [], none⟩ := rfl

/-- C9 fails on the code: a capture window in which no samples were pulled
produces a 1-D `np.array([])`, and `_padtrim_sample`'s shape unpacking
raises `ValueError` instead of producing a normalized window. -/
theorem empty_capture_valueError (sf d : ℚ) :
    padtrim_np (record_eeg_sample []) sf d = Except.error PyErr.valueError := rfl

/-- C4: a sequence-valued metadata key whose length differs from `iterations`
makes `record_loop` raise `AssertionError` before any trial runs: no hook
fires and no field of the dataset is mutated. -/
theorem mismatch_aborts (rec : DataRecorder) (b : Bool) (iterations : ℕ) (d : ℚ)
    (av : List (String × PyVal)) (pulls : ℕ → List (List ℚ)) (k : String) (v : PyVal)
    (hmem : (k, v) ∈ av) (hit : v.isIterable = true) (hlen : v.pyLen ≠ iterations) :
    record_loop rec (some ()) b iterations d av pulls =
      ⟨rec.samples, [], some PyErr.assertionError⟩ := by
  rw [record_loop_with_stream]
  unfold record_loop_body
  rw [classify_error_of_mem iterations av k v hmem hit hlen]

/-- Witness for C4: a two-element list under key "labels" with `iterations = 3`. -/
theorem mismatch_aborts_witness :
    ("labels", PyVal.vlist [PyVal.vint 0, PyVal.vint 1]) ∈
        [("labels", PyVal.vlist [PyVal.vint 0, PyVal.vint 1])] ∧
      (PyVal.vlist [PyVal.vint 0, PyVal.vint 1]).isIterable = true ∧
      (PyVal.vlist [PyVal.vint 0, PyVal.vint 1]).pyLen ≠ 3 ∧
      record_loop (DataRecorder.init 256 ["labels"]) (some ()) true 3 2
          [("labels", PyVal.vlist [PyVal.vint 0, PyVal.vint 1])] (fun _ => [[0]]) =
        ⟨(DataRecorder.init 256 ["labels"]).samples, [], some PyErr.assertionError⟩ :=
  ⟨List.mem_singleton.mpr rfl, rfl, by decide,
    mismatch_aborts (DataRecorder.init 256 ["labels"]) true 3 2
      [("labels", PyVal.vlist [PyVal.vint 0, PyVal.vint 1])] (fun _ => [[0]])
      "labels" (PyVal.vlist [PyVal.vint 0, PyVal.vint 1])
      (List.mem_singleton.mpr rfl) rfl (by decide)⟩

/-- C3 counterexample: the scalar string metadata `{"condition": "rest"}` with
`iterations = 5` does not pass as "repeat once per trial" — a Python string is
`Iterable`, so the length check fires (4 ≠ 5) and the session aborts with
`AssertionError`. -/
theorem scalar_string_aborts_session :
    (record_loop (DataRecorder.init 256 ["condition"]) (some ()) true 5 2
        [("condition", PyVal.vstr "rest")] (fun _ => [[0]])).error =
      some PyErr.assertionError := rfl

/-- C3 amended: only keys whose value is `Iterable` (lists and strings) are
length-validated; a key whose value is not Iterable (e.g. a number) is
unconditionally classified as "repeat this value once per trial" and never
causes the session to abort with `AssertionError`, regardless of
`iterations`. -/
theorem non_iterable_scalars_accepted (rec : DataRecorder) (b : Bool)
    (iterations : ℕ) (d : ℚ) (av : List (String × PyVal))
    (pulls : ℕ → List (List ℚ)) (h : ∀ kv ∈ av, kv.2.isIterable = false) :
    classify iterations av = Except.ok ([], av) ∧
      (record_loop rec (some ()) b iterations d av pulls).error ≠
        some PyErr.assertionError := by
  have hcls := classify_all_object iterations av h
  refine ⟨hcls, ?_⟩
  rw [record_loop_with_stream]
  unfold record_loop_body
  rw [hcls]
  rcases ht : runTrials rec.sampling_frequency d pulls 0 iterations with ⟨recs, tev, terr⟩
  cases terr with
  | some e =>
    have he : e = PyErr.valueError :=
      runTrials_error_valueError rec.sampling_frequency d pulls iterations 0 e
        (by rw [ht])
    simp [he]
  | none =>
    simp only [finishMeta, extendListVars]
    rcases h2 : extendObjectVars iterations
        ⟨rec.samples.recordings ++ recs, rec.samples.fields⟩ av with ⟨ds3, err⟩
    intro heq
    obtain ⟨k2, hk2⟩ := extendObjectVars_keyError iterations av
      ⟨rec.samples.recordings ++ recs, rec.samples.fields⟩ PyErr.assertionError
      (by rw [h2]; exact heq)
    cases hk2

/-- Witness for C3 amended: the integer metadata value 3 under key "label"
with `iterations = 5`. -/
theorem non_iterable_scalars_accepted_witness :
    (∀ kv ∈ [("label", PyVal.vint 3)], kv.2.isIterable = false) ∧
      (classify 5 [("label", PyVal.vint 3)] =
          Except.ok ([], [("label", PyVal.vint 3)]) ∧
        (record_loop (DataRecorder.init 1 ["label"]) (some ()) true 5 1
            [("label", PyVal.vint 3)] (fun _ => [[0]])).error ≠
          some PyErr.assertionError) :=
  ⟨by simp [PyVal.isIterable],
    non_iterable_scalars_accepted (DataRecorder.init 1 ["label"]) true 5 1
      [("label", PyVal.vint 3)] (fun _ => [[0]])
      (by simp [PyVal.isIterable])⟩

/-- C1 fails on the code: with the scalar (non-Iterable) metadata value 3
under key "label" and `iterations = 5`, the session completes normally but
`dataset["label"]` ends as the single element `3 * 5 = 15` (line 116 extends
with `[value * iterations]`), not five copies of 3. -/
theorem scalar_extend_single_element :
    (record_loop (DataRecorder.init 1 ["label"]) (some ()) true 5 1
        [("label", PyVal.vint 3)] (fun _ => [[0]])).error = none ∧
      (record_loop (DataRecorder.init 1 ["label"]) (some ()) true 5 1
          [("label", PyVal.vint 3)] (fun _ => [[0]])).dataset.recordings.length = 5 ∧
      dget (record_loop (DataRecorder.init 1 ["label"]) (some ()) true 5 1
          [("label", PyVal.vint 3)] (fun _ => [[0]])).dataset.fields "label" =
        some [PyVal.vint 15] :=
  ⟨rfl, rfl, rfl⟩

/-- C2 fails on the code: with the scalar metadata value 7 under key "tag" and
`iterations = 3`, `record_loop` completes normally with three recordings but
the "tag" field ends with length 1 (the single element `7 * 3 = 21`), not
length `iterations`. -/
theorem scalar_field_not_length_iterations :
    (record_loop (DataRecorder.init 1 ["tag"]) (some ()) true 3 1
        [("tag", PyVal.vint 7)] (fun _ => [[0]])).error = none ∧
      (record_loop (DataRecorder.init 1 ["tag"]) (some ()) true 3 1
          [("tag", PyVal.vint 7)] (fun _ => [[0]])).dataset.recordings.length = 3 ∧
      dget (record_loop (DataRecorder.init 1 ["tag"]) (some ()) true 3 1
          [("tag", PyVal.vint 7)] (fun _ => [[0]])).dataset.fields "tag" =
        some [PyVal.vint 21] ∧
      ([PyVal.vint 21] : List PyVal).length ≠ 3 :=
  ⟨rfl, rfl, rfl, by decide⟩

/-- C10: a metadata key not declared in `additional_variables` at construction
passes the pre-trial validation; all `iterations` trials run and are appended
to the recordings, and only the final extension step raises `KeyError`,
leaving the recordings grown by `iterations` and the metadata field absent. -/
theorem undeclared_key_late_keyError (rec : DataRecorder) (b : Bool)
    (iterations : ℕ) (d : ℚ) (k : String) (v : PyVal)
    (pulls : ℕ → List (List ℚ)) (hk : dget rec.samples.fields k = none)
    (hv : v.isIterable = true → v.pyLen = iterations)
    (hp : ∀ i, pulls i ≠ []) :
    (record_loop rec (some ()) b iterations d [(k, v)] pulls).error =
        some (PyErr.keyError k) ∧
      (record_loop rec (some ()) b iterations d [(k, v)] pulls).dataset.recordings.length =
        rec.samples.recordings.length + iterations ∧
      dget (record_loop rec (some ()) b iterations d [(k, v)] pulls).dataset.fields k =
        none := by
  rw [record_loop_with_stream]
  unfold record_loop_body
  rcases ht : runTrials rec.sampling_frequency d pulls 0 iterations with ⟨recs, tev, terr⟩
  have htot := runTrials_total rec.sampling_frequency d pulls hp iterations 0
  rw [ht] at htot
  obtain ⟨hterr, hlen⟩ := htot
  have hterr' : terr = none := hterr
  subst hterr'
  have hlen' : recs.length = iterations := hlen
  by_cases hi : v.isIterable
  · have hcls : classify iterations [(k, v)] = Except.ok ([(k, v)], []) := by
      simp [classify, hi, hv hi]
    rw [hcls]
    simp only [finishMeta, extendListVars, hk]
    refine ⟨trivial, ?_, trivial⟩
    simp [hlen']
  · have hcls : classify iterations [(k, v)] = Except.ok ([], [(k, v)]) := by
      simp [classify, hi]
    rw [hcls]
    simp only [finishMeta, extendListVars, extendObjectVars, hk]
    refine ⟨trivial, ?_, trivial⟩
    simp [hlen']

/-- Witness for C10: an undeclared key "label" holding a two-element list with
`iterations = 2`, on a recorder constructed with no additional variables. -/
theorem undeclared_key_late_keyError_witness :
    dget (DataRecorder.init 1 []).samples.fields "label" = none ∧
      ((record_loop (DataRecorder.init 1 []) (some ()) true 2 1
          [("label", PyVal.vlist [PyVal.vint 0, PyVal.vint 1])]
          (fun _ => [[0]])).error = some (PyErr.keyError "label") ∧
        (record_loop (DataRecorder.init 1 []) (some ()) true 2 1
            [("label", PyVal.vlist [PyVal.vint 0, PyVal.vint 1])]
            (fun _ => [[0]])).dataset.recordings.length =
          (DataRecorder.init 1 []).samples.recordings.length + 2 ∧
        dget (record_loop (DataRecorder.init 1 []) (some ()) true 2 1
            [("label", PyVal.vlist [PyVal.vint 0, PyVal.vint 1])]
            (fun _ => [[0]])).dataset.fields "label" = none) :=
  ⟨rfl,
    undeclared_key_late_keyError (DataRecorder.init 1 []) true 2 1 "label"
      (PyVal.vlist [PyVal.vint 0, PyVal.vint 1]) (fun _ => [[0]]) rfl
      (fun _ => rfl) (fun _ => by simp)⟩

end DataRec
